import Mathlib

/-!
Shallow embedding of `src/src/Main.rs` (gpu_temp_reader): a poll loop that
queries GPU temperature, utilization and model name via three `nvidia-smi`
subprocess invocations, renders one line per cycle, and exits on the `q` key.

Modelling conventions:
* Rust `f32` is modelled by `F32`: NaN, the two infinities, and finite values
  carried as exact decimals `m * 10 ^ e`.  IEEE rounding, overflow on parse
  and the sign of zero are not modelled; every numeric value appearing in
  this development is exactly representable, so the comparison and display
  semantics coincide with `f32` on all inputs used.
* A byte sequence (`Vec<u8>`) is abstracted by `Bytes`: either valid UTF-8
  with its decoding, or invalid with the decode-error description and the
  lossy decoding (`String::from_utf8_lossy`).
* `Command::output()` is abstracted by an executor `Cmd → SpawnResult`
  supplied by the environment; each query function consults the executor at
  its fixed command.
-/

namespace GpuTempReader

/-- Model of Rust `f32` values as they matter to this program: NaN, ±∞, and
finite values as exact decimals — `val m e` denotes `m * 10 ^ e`.  Parsed
values are normalized (`m = 0 → e = 0`; `m ≠ 0 → 10 ∤ m`), making structural
equality coincide with value equality on parser outputs. -/
inductive F32 where
  | nan : F32
  | inf : F32
  | neginf : F32
  | val : Int → Int → F32
deriving DecidableEq, Repr

/-- `m₁ * 10 ^ e₁ < m₂ * 10 ^ e₂`, decided by scaling to a common exponent. -/
def valLt (m₁ e₁ m₂ e₂ : Int) : Bool :=
  if e₁ ≤ e₂ then decide (m₁ < m₂ * (10 : Int) ^ (e₂ - e₁).toNat)
  else decide (m₁ * (10 : Int) ^ (e₁ - e₂).toNat < m₂)

/-- `m₁ * 10 ^ e₁ ≤ m₂ * 10 ^ e₂`, decided by scaling to a common exponent. -/
def valLe (m₁ e₁ m₂ e₂ : Int) : Bool :=
  if e₁ ≤ e₂ then decide (m₁ ≤ m₂ * (10 : Int) ^ (e₂ - e₁).toNat)
  else decide (m₁ * (10 : Int) ^ (e₁ - e₂).toNat ≤ m₂)

/-- IEEE-754 `>` on modelled `f32` values: any comparison with NaN is false;
infinities compare as extremes; finite values compare by their exact value.
This is the semantics of Rust's `temp > 70.0`. -/
def F32.gt : F32 → F32 → Bool
  | .nan, _ => false
  | _, .nan => false
  | .inf, .inf => false
  | .inf, .neginf => true
  | .inf, .val _ _ => true
  | .neginf, _ => false
  | .val _ _, .inf => false
  | .val _ _, .neginf => true
  | .val m₁ e₁, .val m₂ e₂ => valLt m₂ e₂ m₁ e₁

/-- IEEE-754 `<=` on modelled `f32` values: false whenever either side is
NaN, otherwise the value order. -/
def F32.le : F32 → F32 → Bool
  | .nan, _ => false
  | _, .nan => false
  | .inf, .inf => true
  | .inf, _ => false
  | .neginf, _ => true
  | .val _ _, .inf => true
  | .val _ _, .neginf => false
  | .val m₁ e₁, .val m₂ e₂ => valLe m₁ e₁ m₂ e₂

/-- Count and remove the trailing base-10 zeros of `n` (first argument is
recursion fuel, `n` itself suffices). -/
def stripZeros : Nat → Nat → Nat × Nat
  | 0, n => (n, 0)
  | f + 1, n =>
    if n % 10 = 0 ∧ n ≠ 0 then
      let r := stripZeros f (n / 10)
      (r.1, r.2 + 1)
    else (n, 0)

/-- Build the normalized finite `F32` denoting `m * 10 ^ e`. -/
def normVal (m e : Int) : F32 :=
  if m = 0 then .val 0 0
  else
    let r := stripZeros m.natAbs m.natAbs
    .val ((if m < 0 then -1 else 1) * (r.1 : Int)) (e + (r.2 : Int))

/-- Left-pad a string with `'0'` to length `n` (decimal rendering helper). -/
def padZeros (s : String) (n : Nat) : String :=
  String.mk (List.replicate (n - s.length) '0') ++ s

/-- Model of Rust's `Display` for `f32` (`format!("{}", x)`): `"NaN"`,
`"inf"`, `"-inf"`; integral finite values print with no decimal point
(`72.0_f32` prints `"72"`); other finite values print their decimal
expansion, which on normalized values (no trailing zero digits) is Rust's
shortest round-trip decimal for every value arising in this development. -/
def F32.display : F32 → String
  | .nan => "NaN"
  | .inf => "inf"
  | .neginf => "-inf"
  | .val m e =>
    if 0 ≤ e then toString (m * (10 : Int) ^ e.toNat)
    else
      let k := (-e).toNat
      let a := m.natAbs
      (if m < 0 then "-" else "") ++ toString (a / 10 ^ k) ++ "." ++
        padZeros (toString (a % 10 ^ k)) k

/-- Digit list to the natural number it denotes in base 10. -/
def digitsToNat (cs : List Char) : Nat :=
  cs.foldl (fun a c => a * 10 + (c.toNat - 48)) 0

/-- Parse the `Number` production of Rust's `f32::from_str` grammar
(`Count '.'? Count? Exp?` or `'.' Count Exp?`, `Exp ::= e Sign? Count`),
already lower-cased and with the leading sign stripped into `neg`.
Finite result carried exactly. -/
def parseNumber (neg : Bool) (cs : List Char) : Option F32 :=
  let p1 := cs.span Char.isDigit
  let intDigits := p1.1
  let p2 := match p1.2 with
    | '.' :: r => r.span Char.isDigit
    | _ => ([], p1.2)
  let fracDigits := p2.1
  if intDigits.isEmpty ∧ fracDigits.isEmpty then none
  else
    let m : Int :=
      (if neg then -1 else 1) * (digitsToNat (intDigits ++ fracDigits) : Int)
    match p2.2 with
    | [] => some (normVal m (-(fracDigits.length : Int)))
    | 'e' :: r3 =>
      let p4 : Bool × List Char := match r3 with
        | '+' :: r => (false, r)
        | '-' :: r => (true, r)
        | r => (false, r)
      let p5 := p4.2.span Char.isDigit
      if p5.1.isEmpty ∨ ¬ p5.2.isEmpty then none
      else
        let ex : Int := (if p4.1 then -1 else 1) * (digitsToNat p5.1 : Int)
        some (normVal m (ex - (fracDigits.length : Int)))
    | _ => none

/-- Model of Rust `str::parse::<f32>` (`f32::from_str`):
`Sign? (inf | infinity | nan | Number)`, case-insensitive, `none` on any
other input (Rust's `ParseFloatError`). -/
def parseF32 (s : String) : Option F32 :=
  let cs := s.toList.map Char.toLower
  if cs.isEmpty then none
  else
    let p : Bool × List Char := match cs with
      | '+' :: r => (false, r)
      | '-' :: r => (true, r)
      | r => (false, r)
    if p.2 = ['i', 'n', 'f'] ∨ p.2 = ['i', 'n', 'f', 'i', 'n', 'i', 't', 'y'] then
      some (if p.1 then .neginf else .inf)
    else if p.2 = ['n', 'a', 'n'] then some .nan
    else parseNumber p.1 p.2

/-- Model of Rust `char::is_whitespace`: the Unicode `White_Space` property
(U+0009–U+000D, U+0020, U+0085, U+00A0, U+1680, U+2000–U+200A, U+2028,
U+2029, U+202F, U+205F, U+3000). -/
def rustIsWhitespace (c : Char) : Bool :=
  let n := c.toNat
  (decide (9 ≤ n) && decide (n ≤ 13)) || decide (n = 32) || decide (n = 0x85) ||
    decide (n = 0xA0) || decide (n = 0x1680) ||
    (decide (0x2000 ≤ n) && decide (n ≤ 0x200A)) || decide (n = 0x2028) ||
    decide (n = 0x2029) || decide (n = 0x202F) || decide (n = 0x205F) ||
    decide (n = 0x3000)

/-- Model of Rust `str::trim`: drop leading and trailing Unicode
`White_Space` characters. -/
def rustTrim (s : String) : String :=
  String.mk
    (((s.toList.dropWhile rustIsWhitespace).reverse.dropWhile
      rustIsWhitespace).reverse)

/-- Model of the `Display` of Rust `ParseFloatError`: parsing an empty string
reports `cannot parse float from empty string`; every other rejected input
reports `invalid float literal`. -/
def parseFloatErrDisplay (s : String) : String :=
  if s = "" then "cannot parse float from empty string"
  else "invalid float literal"

/-- A byte sequence, abstracted by its UTF-8 status: `text s` is a valid
UTF-8 sequence decoding to `s`; `invalid err lossy` is an invalid sequence
whose `Utf8Error` displays as `err` and whose `from_utf8_lossy` decoding is
`lossy`. -/
inductive Bytes where
  | text : String → Bytes
  | invalid : String → String → Bytes
deriving DecidableEq, Repr

deriving instance DecidableEq for Except

/-- Model of `str::from_utf8`: succeeds exactly on valid UTF-8. -/
def fromUtf8 : Bytes → Except String String
  | .text s => .ok s
  | .invalid e _ => .error e

/-- Model of `String::from_utf8_lossy` (always succeeds). -/
def fromUtf8Lossy : Bytes → String
  | .text s => s
  | .invalid _ l => l

/-- Model of `std::process::Output`: exit-status success flag, the status's
`Display` string, and captured stdout/stderr bytes. -/
structure ProcOutput where
  statusSuccess : Bool
  statusDisplay : String
  stdout : Bytes
  stderr : Bytes
deriving DecidableEq, Repr

/-- Result of `Command::output()`: spawn failure with the `io::Error`
display, or the child's collected output. -/
inductive SpawnResult where
  | err : String → SpawnResult
  | ok : ProcOutput → SpawnResult
deriving DecidableEq, Repr

/-- A command line: program plus arguments. -/
structure Cmd where
  program : String
  args : List String
deriving DecidableEq, Repr

/-- The command issued by `get_gpu_temperature` (Main.rs lines 33-35). -/
def tempCmd : Cmd :=
  ⟨"nvidia-smi", ["--query-gpu=temperature.gpu", "--format=csv,noheader,nounits"]⟩

/-- The command issued by `get_gpu_load` (Main.rs lines 48-50). -/
def loadCmd : Cmd :=
  ⟨"nvidia-smi", ["--query-gpu=utilization.gpu", "--format=csv,noheader,nounits"]⟩

/-- The command issued by `get_gpu_model` (Main.rs lines 63-65). -/
def modelCmd : Cmd :=
  ⟨"nvidia-smi", ["--query-gpu=name", "--format=csv,noheader"]⟩

/-- Embedding of `get_gpu_temperature` (Main.rs lines 32-45): run `tempCmd`,
fail on spawn error / non-zero status / invalid UTF-8 / float-parse failure,
otherwise return the trimmed output parsed as `f32`.  A parse failure carries
the `ParseFloatError` display for the trimmed string. -/
def get_gpu_temperature (exec : Cmd → SpawnResult) : Except String F32 :=
  match exec tempCmd with
  | .err e => .error ("Failed to execute command: " ++ e)
  | .ok output =>
    if ¬ output.statusSuccess then
      .error ("Command failed with status: " ++ output.statusDisplay ++
        ", stderr: " ++ fromUtf8Lossy output.stderr)
    else
      match fromUtf8 output.stdout with
      | .error e => .error ("Failed to parse output: " ++ e)
      | .ok temp_str =>
        match parseF32 (rustTrim temp_str) with
        | none => .error ("Failed to parse temperature: " ++
            parseFloatErrDisplay (rustTrim temp_str))
        | some v => .ok v

/-- Embedding of `get_gpu_load` (Main.rs lines 47-60): identical shape to the
temperature query, with `loadCmd` and a load-specific parse-error message. -/
def get_gpu_load (exec : Cmd → SpawnResult) : Except String F32 :=
  match exec loadCmd with
  | .err e => .error ("Failed to execute command: " ++ e)
  | .ok output =>
    if ¬ output.statusSuccess then
      .error ("Command failed with status: " ++ output.statusDisplay ++
        ", stderr: " ++ fromUtf8Lossy output.stderr)
    else
      match fromUtf8 output.stdout with
      | .error e => .error ("Failed to parse output: " ++ e)
      | .ok load_str =>
        match parseF32 (rustTrim load_str) with
        | none => .error ("Failed to parse load: " ++
            parseFloatErrDisplay (rustTrim load_str))
        | some v => .ok v

/-- Embedding of `get_gpu_model` (Main.rs lines 62-75): run `modelCmd`, fail
on spawn error / non-zero status / invalid UTF-8, otherwise return the
trimmed output text. -/
def get_gpu_model (exec : Cmd → SpawnResult) : Except String String :=
  match exec modelCmd with
  | .err e => .error ("Failed to execute command: " ++ e)
  | .ok output =>
    if ¬ output.statusSuccess then
      .error ("Command failed with status: " ++ output.statusDisplay ++
        ", stderr: " ++ fromUtf8Lossy output.stderr)
    else
      match fromUtf8 output.stdout with
      | .error e => .error ("Failed to parse output: " ++ e)
      | .ok model_str => .ok (rustTrim model_str)

/-- Style of the temperature portion of a rendered reading line. -/
inductive Style where
  | plain : Style
  | warning : Style
deriving DecidableEq, Repr

/-- A rendered reading line: its plain text (the content after the leading
carriage return, without ANSI styling escapes) and the style applied to the
temperature value (`.red()` in the warning branch). -/
structure RenderedLine where
  text : String
  tempStyle : Style
deriving DecidableEq, Repr

/-- Embedding of the render step (Main.rs lines 103-113):
`format!("GPU: {} Temperature: {} °C, Load: {}%", model, temp, load)`, the
temperature styled as a warning exactly when `temp > 70.0`. -/
def renderLine (model : String) (temp load : F32) : RenderedLine :=
  { text := "GPU: " ++ model ++ " Temperature: " ++ temp.display ++
      " °C, Load: " ++ load.display ++ "%",
    tempStyle := if F32.gt temp (.val 70 0) then .warning else .plain }

/-- Model of `crossterm::event::KeyCode` as used here: a character key or any
other key (abstracted by a tag). -/
inductive KeyCode where
  | char : Char → KeyCode
  | otherKey : Nat → KeyCode
deriving DecidableEq, Repr

/-- Model of `crossterm::event::KeyEvent`: a key code plus modifiers
(abstracted; the program compares only `event.code`). -/
structure KeyEvent where
  code : KeyCode
  modifiers : Nat
deriving DecidableEq, Repr

/-- Model of `crossterm::event::Event`: a key event or any non-key event
(mouse, resize, focus, paste — abstracted by a tag). -/
inductive Event where
  | key : KeyEvent → Event
  | nonKey : Nat → Event
deriving DecidableEq, Repr

/-- The loop's continuation decision after a cycle. -/
inductive LoopState where
  | polling : LoopState
  | terminated : LoopState
deriving DecidableEq, Repr

/-- Embedding of the input-wait step (Main.rs lines 122-128): `none` means
`event::poll` timed out after 1 second.  Only a key event whose code equals
`Char('q')` breaks the loop. -/
def checkInput : Option Event → LoopState
  | some (.key k) => if k.code = .char 'q' then .terminated else .polling
  | some (.nonKey _) => .polling
  | none => .polling

/-- What a cycle prints: a reading line, or the error line
`format!("Error: {}", e)` when the temperature query failed. -/
inductive CycleOutput where
  | reading : RenderedLine → CycleOutput
  | errorLine : String → CycleOutput
deriving DecidableEq, Repr

/-- The result of one loop iteration: what was printed, which commands were
spawned, and whether the loop continues. -/
structure CycleResult where
  output : CycleOutput
  invoked : List Cmd
  next : LoopState
deriving DecidableEq, Repr

/-- Embedding of one iteration of the `loop` in `main` (Main.rs lines
84-129): query temperature; on success query load (fallback `0.0`) and model
(fallback `"Unknown"`) and render the reading; on failure render the error
line and skip the load/model queries; then wait for input.  `invoked` lists
the commands spawned in source order. -/
def runCycle (exec : Cmd → SpawnResult) (input : Option Event) : CycleResult :=
  match get_gpu_temperature exec with
  | .ok temp =>
    let load := match get_gpu_load exec with
      | .ok l => l
      | .error _ => .val 0 0
    let model := match get_gpu_model exec with
      | .ok m => m
      | .error _ => "Unknown"
    { output := .reading (renderLine model temp load),
      invoked := [tempCmd, loadCmd, modelCmd],
      next := checkInput input }
  | .error e =>
    { output := .errorLine ("Error: " ++ e),
      invoked := [tempCmd],
      next := checkInput input }

/-- The load value used by the render step: the query's result or the `0.0`
fallback (Main.rs lines 87-93). -/
def loadValue (exec : Cmd → SpawnResult) : F32 :=
  match get_gpu_load exec with
  | .ok l => l
  | .error _ => .val 0 0

/-- The model text used by the render step: the query's result or the
`"Unknown"` fallback (Main.rs lines 94-100). -/
def modelValue (exec : Cmd → SpawnResult) : String :=
  match get_gpu_model exec with
  | .ok m => m
  | .error _ => "Unknown"

/-- Run the loop over a finite schedule of per-cycle environments, collecting
outputs; `.terminated` only if some cycle's input check broke the loop. -/
def runLoop : List ((Cmd → SpawnResult) × Option Event) → List CycleOutput × LoopState
  | [] => ([], .polling)
  | (e, i) :: rest =>
    let c := runCycle e i
    match c.next with
    | .terminated => ([c.output], .terminated)
    | .polling =>
      let r := runLoop rest
      (c.output :: r.1, r.2)

/-- Mock executor for the spec's fixed scenario: the three queries answer
`"72"`, `"55"` and `"NVIDIA X"` with zero exit status. -/
def mockExec : Cmd → SpawnResult := fun c =>
  if c = tempCmd then .ok ⟨true, "exit status: 0", .text "72", .text ""⟩
  else if c = loadCmd then .ok ⟨true, "exit status: 0", .text "55", .text ""⟩
  else .ok ⟨true, "exit status: 0", .text "NVIDIA X", .text ""⟩

/-! ### Helper lemmas -/

theorem temp_spawn_err (exec : Cmd → SpawnResult) (e : String)
    (h : exec tempCmd = .err e) :
    get_gpu_temperature exec = .error ("Failed to execute command: " ++ e) := by
  unfold get_gpu_temperature
  rw [h]

theorem temp_status_err (exec : Cmd → SpawnResult) (o : ProcOutput)
    (h : exec tempCmd = .ok o) (hs : o.statusSuccess = false) :
    get_gpu_temperature exec = .error ("Command failed with status: " ++
      o.statusDisplay ++ ", stderr: " ++ fromUtf8Lossy o.stderr) := by
  unfold get_gpu_temperature
  rw [h]
  simp [hs]

theorem temp_utf8_err (exec : Cmd → SpawnResult) (o : ProcOutput)
    (eu lu : String) (h : exec tempCmd = .ok o) (hs : o.statusSuccess = true)
    (hst : o.stdout = .invalid eu lu) :
    get_gpu_temperature exec = .error ("Failed to parse output: " ++ eu) := by
  unfold get_gpu_temperature
  rw [h]
  simp [hs, hst, fromUtf8]

theorem temp_parse_err (exec : Cmd → SpawnResult) (o : ProcOutput) (s : String)
    (h : exec tempCmd = .ok o) (hs : o.statusSuccess = true)
    (hst : o.stdout = .text s) (hp : parseF32 (rustTrim s) = none) :
    get_gpu_temperature exec =
      .error ("Failed to parse temperature: " ++
        parseFloatErrDisplay (rustTrim s)) := by
  unfold get_gpu_temperature
  rw [h]
  simp [hs, hst, fromUtf8, hp]

theorem temp_ok (exec : Cmd → SpawnResult) (o : ProcOutput) (s : String)
    (v : F32) (h : exec tempCmd = .ok o) (hs : o.statusSuccess = true)
    (hst : o.stdout = .text s) (hp : parseF32 (rustTrim s) = some v) :
    get_gpu_temperature exec = .ok v := by
  unfold get_gpu_temperature
  rw [h]
  simp [hs, hst, fromUtf8, hp]

theorem load_spawn_err (exec : Cmd → SpawnResult) (e : String)
    (h : exec loadCmd = .err e) :
    get_gpu_load exec = .error ("Failed to execute command: " ++ e) := by
  unfold get_gpu_load
  rw [h]

theorem load_status_err (exec : Cmd → SpawnResult) (o : ProcOutput)
    (h : exec loadCmd = .ok o) (hs : o.statusSuccess = false) :
    get_gpu_load exec = .error ("Command failed with status: " ++
      o.statusDisplay ++ ", stderr: " ++ fromUtf8Lossy o.stderr) := by
  unfold get_gpu_load
  rw [h]
  simp [hs]

theorem load_utf8_err (exec : Cmd → SpawnResult) (o : ProcOutput)
    (eu lu : String) (h : exec loadCmd = .ok o) (hs : o.statusSuccess = true)
    (hst : o.stdout = .invalid eu lu) :
    get_gpu_load exec = .error ("Failed to parse output: " ++ eu) := by
  unfold get_gpu_load
  rw [h]
  simp [hs, hst, fromUtf8]

theorem load_parse_err (exec : Cmd → SpawnResult) (o : ProcOutput) (s : String)
    (h : exec loadCmd = .ok o) (hs : o.statusSuccess = true)
    (hst : o.stdout = .text s) (hp : parseF32 (rustTrim s) = none) :
    get_gpu_load exec =
      .error ("Failed to parse load: " ++ parseFloatErrDisplay (rustTrim s)) := by
  unfold get_gpu_load
  rw [h]
  simp [hs, hst, fromUtf8, hp]

theorem load_ok (exec : Cmd → SpawnResult) (o : ProcOutput) (s : String)
    (v : F32) (h : exec loadCmd = .ok o) (hs : o.statusSuccess = true)
    (hst : o.stdout = .text s) (hp : parseF32 (rustTrim s) = some v) :
    get_gpu_load exec = .ok v := by
  unfold get_gpu_load
  rw [h]
  simp [hs, hst, fromUtf8, hp]

theorem model_spawn_err (exec : Cmd → SpawnResult) (e : String)
    (h : exec modelCmd = .err e) :
    get_gpu_model exec = .error ("Failed to execute command: " ++ e) := by
  unfold get_gpu_model
  rw [h]

theorem model_status_err (exec : Cmd → SpawnResult) (o : ProcOutput)
    (h : exec modelCmd = .ok o) (hs : o.statusSuccess = false) :
    get_gpu_model exec = .error ("Command failed with status: " ++
      o.statusDisplay ++ ", stderr: " ++ fromUtf8Lossy o.stderr) := by
  unfold get_gpu_model
  rw [h]
  simp [hs]

theorem model_utf8_err (exec : Cmd → SpawnResult) (o : ProcOutput)
    (eu lu : String) (h : exec modelCmd = .ok o) (hs : o.statusSuccess = true)
    (hst : o.stdout = .invalid eu lu) :
    get_gpu_model exec = .error ("Failed to parse output: " ++ eu) := by
  unfold get_gpu_model
  rw [h]
  simp [hs, hst, fromUtf8]

theorem model_ok (exec : Cmd → SpawnResult) (o : ProcOutput) (s : String)
    (h : exec modelCmd = .ok o) (hs : o.statusSuccess = true)
    (hst : o.stdout = .text s) :
    get_gpu_model exec = .ok (rustTrim s) := by
  unfold get_gpu_model
  rw [h]
  simp [hs, hst, fromUtf8]

theorem get_gpu_temperature_congr (e₁ e₂ : Cmd → SpawnResult)
    (h : e₁ tempCmd = e₂ tempCmd) :
    get_gpu_temperature e₁ = get_gpu_temperature e₂ := by
  unfold get_gpu_temperature
  rw [h]

theorem get_gpu_load_congr (e₁ e₂ : Cmd → SpawnResult)
    (h : e₁ loadCmd = e₂ loadCmd) :
    get_gpu_load e₁ = get_gpu_load e₂ := by
  unfold get_gpu_load
  rw [h]

theorem get_gpu_model_congr (e₁ e₂ : Cmd → SpawnResult)
    (h : e₁ modelCmd = e₂ modelCmd) :
    get_gpu_model e₁ = get_gpu_model e₂ := by
  unfold get_gpu_model
  rw [h]

theorem runCycle_next (exec : Cmd → SpawnResult) (input : Option Event) :
    (runCycle exec input).next = checkInput input := by
  unfold runCycle
  cases get_gpu_temperature exec <;> rfl

theorem runCycle_output_ok (exec : Cmd → SpawnResult) (input : Option Event)
    (t : F32) (ht : get_gpu_temperature exec = .ok t) :
    (runCycle exec input).output =
      .reading (renderLine (modelValue exec) t (loadValue exec)) := by
  unfold runCycle modelValue loadValue
  rw [ht]

theorem valLe_imp_not_valLt (m₁ e₁ m₂ e₂ : Int)
    (h : valLe m₁ e₁ m₂ e₂ = true) : valLt m₂ e₂ m₁ e₁ = false := by
  unfold valLe at h
  unfold valLt
  rcases lt_trichotomy e₁ e₂ with hlt | heq | hgt
  · rw [if_pos (le_of_lt hlt)] at h
    rw [if_neg (not_le.mpr hlt)]
    simp only [decide_eq_true_eq] at h
    simp only [decide_eq_false_iff_not, not_lt]
    exact h
  · subst heq
    rw [if_pos le_rfl] at h
    rw [if_pos le_rfl]
    simp only [sub_self, Int.toNat_zero, pow_zero, mul_one,
      decide_eq_true_eq] at h
    simp only [sub_self, Int.toNat_zero, pow_zero, mul_one,
      decide_eq_false_iff_not, not_lt]
    exact h
  · rw [if_neg (not_le.mpr hgt)] at h
    rw [if_pos (le_of_lt hgt)]
    simp only [decide_eq_true_eq] at h
    simp only [decide_eq_false_iff_not, not_lt]
    exact h

theorem F32.le_imp_not_gt (t c : F32) (h : F32.le t c = true) :
    F32.gt t c = false := by
  cases t <;> cases c <;>
    simp only [F32.le, F32.gt] at h ⊢ <;>
    first
      | rfl
      | simp at h
      | exact valLe_imp_not_valLt _ _ _ _ h

/-! ### Concrete executors used to witness the claims -/

/-- Executor whose every spawn fails (tool absent). -/
def failExec : Cmd → SpawnResult := fun _ =>
  .err "No such file or directory (os error 2)"

/-- Executor where only the temperature query succeeds. -/
def partialExec : Cmd → SpawnResult := fun c =>
  if c = tempCmd then .ok ⟨true, "exit status: 0", .text "72\n", .text ""⟩
  else .err "spawn failed"

/-- Executor answering `"72\n"`, `" 55 \n"`, `"NVIDIA X\n"` (untrimmed). -/
def newlineExec : Cmd → SpawnResult := fun c =>
  if c = tempCmd then .ok ⟨true, "exit status: 0", .text "72\n", .text ""⟩
  else if c = loadCmd then .ok ⟨true, "exit status: 0", .text " 55 \n", .text ""⟩
  else .ok ⟨true, "exit status: 0", .text "NVIDIA X\n", .text ""⟩

/-- Executor whose every query succeeds with a bare-newline stdout, which
trims to the empty string. -/
def emptyOutExec : Cmd → SpawnResult := fun _ =>
  .ok ⟨true, "exit status: 0", .text "\n", .text ""⟩

/-- Executor whose temperature output is the text `"NaN"`. -/
def nanExec : Cmd → SpawnResult := fun c =>
  if c = tempCmd then .ok ⟨true, "exit status: 0", .text "NaN\n", .text ""⟩
  else .ok ⟨true, "exit status: 0", .text "55\n", .text ""⟩

/-- Two executors agreeing at `tempCmd` and differing elsewhere. -/
def execA : Cmd → SpawnResult := fun c =>
  if c = tempCmd then .ok ⟨true, "exit status: 0", .text "65\n", .text ""⟩
  else .err "alpha"

/-- Counterpart of `execA`: same temperature result, different elsewhere. -/
def execB : Cmd → SpawnResult := fun c =>
  if c = tempCmd then .ok ⟨true, "exit status: 0", .text "65\n", .text ""⟩
  else .err "beta"

/-- Two executors agreeing at `modelCmd` and differing elsewhere. -/
def execC : Cmd → SpawnResult := fun c =>
  if c = modelCmd then .ok ⟨true, "exit status: 0", .text "NVIDIA X\n", .text ""⟩
  else .err "gamma"

/-- Counterpart of `execC`: same model result, different elsewhere. -/
def execD : Cmd → SpawnResult := fun c =>
  if c = modelCmd then .ok ⟨true, "exit status: 0", .text "NVIDIA X\n", .text ""⟩
  else .ok ⟨false, "exit status: 1", .text "", .text "err"⟩

/-! ### Claims -/

/-- C1: for every obtained temperature value `t`, the render path styles the
temperature as a warning exactly when `t > 70.0` under `f32` comparison
semantics, and every `t ≤ 70.0` — in particular `t = 70.0` exactly — renders
with the plain style. -/
theorem render_warning_iff_strict_gt70 (model : String) (load t : F32) :
    (((renderLine model t load).tempStyle = Style.warning) ↔
      F32.gt t (F32.val 70 0) = true)
    ∧ (F32.le t (F32.val 70 0) = true →
      (renderLine model t load).tempStyle = Style.plain) := by
  constructor
  · unfold renderLine
    by_cases hg : F32.gt t (F32.val 70 0) = true <;> simp [hg]
  · intro hle
    unfold renderLine
    rw [F32.le_imp_not_gt t _ hle]
    simp

/-- C1 witness: the boundary value `70.0` itself renders plain. -/
theorem render_warning_iff_strict_gt70_w :
    (renderLine "GPU0" (F32.val 70 0) (F32.val 0 0)).tempStyle = Style.plain :=
  (render_warning_iff_strict_gt70 "GPU0" (F32.val 0 0) (F32.val 70 0)).2
    (by decide)

/-- C2: when the temperature query fails, the cycle renders the error line in
place of a reading and spawns neither the load nor the model command. -/
theorem temp_failure_error_line_skips_queries (exec : Cmd → SpawnResult)
    (input : Option Event) (e : String)
    (h : get_gpu_temperature exec = .error e) :
    (runCycle exec input).output = .errorLine ("Error: " ++ e)
    ∧ (runCycle exec input).invoked = [tempCmd]
    ∧ loadCmd ∉ (runCycle exec input).invoked
    ∧ modelCmd ∉ (runCycle exec input).invoked := by
  have hout : runCycle exec input =
      { output := .errorLine ("Error: " ++ e), invoked := [tempCmd],
        next := checkInput input } := by
    unfold runCycle
    rw [h]
  rw [hout]
  refine ⟨rfl, rfl, ?_, ?_⟩
  · show loadCmd ∉ [tempCmd]
    decide
  · show modelCmd ∉ [tempCmd]
    decide

/-- C2 witness: with every spawn failing, the cycle prints the error line and
invokes only the temperature command. -/
theorem temp_failure_error_line_skips_queries_w :
    (runCycle failExec none).output =
      .errorLine ("Error: " ++
        ("Failed to execute command: " ++ "No such file or directory (os error 2)"))
    ∧ (runCycle failExec none).invoked = [tempCmd]
    ∧ loadCmd ∉ (runCycle failExec none).invoked
    ∧ modelCmd ∉ (runCycle failExec none).invoked :=
  temp_failure_error_line_skips_queries failExec none
    ("Failed to execute command: " ++ "No such file or directory (os error 2)")
    (by decide)

/-- C3: when the temperature query succeeds with `t`, the cycle still renders
a reading with `t`; a failing load query independently falls back to `0.0`
and a failing model query independently falls back to `"Unknown"`. -/
theorem load_model_fallbacks (exec : Cmd → SpawnResult) (input : Option Event)
    (t : F32) (ht : get_gpu_temperature exec = .ok t) :
    (runCycle exec input).output =
      .reading (renderLine (modelValue exec) t (loadValue exec))
    ∧ (∀ e, get_gpu_load exec = .error e → loadValue exec = F32.val 0 0)
    ∧ (∀ e, get_gpu_model exec = .error e → modelValue exec = "Unknown") := by
  refine ⟨runCycle_output_ok exec input t ht, ?_, ?_⟩
  · intro e he
    unfold loadValue
    rw [he]
  · intro e he
    unfold modelValue
    rw [he]

/-- C3 witness: temperature `72` succeeds while load and model fail; the
reading uses the fallbacks and the real temperature. -/
theorem load_model_fallbacks_w :
    (runCycle partialExec none).output =
      .reading (renderLine (modelValue partialExec) (F32.val 72 0)
        (loadValue partialExec))
    ∧ loadValue partialExec = F32.val 0 0
    ∧ modelValue partialExec = "Unknown" := by
  have h := load_model_fallbacks partialExec none (F32.val 72 0) (by decide)
  exact ⟨h.1, h.2.1 ("Failed to execute command: " ++ "spawn failed") (by decide),
    h.2.2 ("Failed to execute command: " ++ "spawn failed") (by decide)⟩

/-- C4: a cycle transitions to the terminal state exactly when its input is a
key event with code `q`; any other event or a timeout returns to polling, and
a finite run of the loop reaches the terminal state only if some cycle's
input was a `q` key event. -/
theorem terminate_iff_q :
    (∀ (exec : Cmd → SpawnResult) (input : Option Event),
      ((runCycle exec input).next = LoopState.terminated ↔
        ∃ k : KeyEvent, input = some (Event.key k) ∧ k.code = KeyCode.char 'q'))
    ∧ ∀ envs : List ((Cmd → SpawnResult) × Option Event),
        (runLoop envs).2 = LoopState.terminated →
        ∃ pr ∈ envs, ∃ k : KeyEvent,
          pr.2 = some (Event.key k) ∧ k.code = KeyCode.char 'q' := by
  have hsingle : ∀ (exec : Cmd → SpawnResult) (input : Option Event),
      ((runCycle exec input).next = LoopState.terminated ↔
        ∃ k : KeyEvent, input = some (Event.key k) ∧
          k.code = KeyCode.char 'q') := by
    intro exec input
    rw [runCycle_next]
    cases input with
    | none => simp [checkInput]
    | some ev =>
      cases ev with
      | key k =>
        by_cases hq : k.code = KeyCode.char 'q' <;> simp [checkInput, hq]
      | nonKey n => simp [checkInput]
  refine ⟨hsingle, ?_⟩
  intro envs
  induction envs with
  | nil =>
    intro h
    simp [runLoop] at h
  | cons pr rest ih =>
    obtain ⟨e, i⟩ := pr
    intro h
    cases hn : (runCycle e i).next with
    | terminated =>
      exact ⟨(e, i), List.mem_cons_self _ _, (hsingle e i).mp hn⟩
    | polling =>
      simp [runLoop, hn] at h
      obtain ⟨pr', hmem, hk⟩ := ih h
      exact ⟨pr', List.mem_cons_of_mem _ hmem, hk⟩

/-- C4 witness: a `q` key event terminates the cycle, and a one-cycle run
ending terminated indeed contains a `q` key event. -/
theorem terminate_iff_q_w :
    (runCycle mockExec (some (Event.key ⟨KeyCode.char 'q', 0⟩))).next =
      LoopState.terminated
    ∧ ∃ pr ∈ [((mockExec : Cmd → SpawnResult),
        some (Event.key ⟨KeyCode.char 'q', 0⟩))], ∃ k : KeyEvent,
        pr.2 = some (Event.key k) ∧ k.code = KeyCode.char 'q' :=
  ⟨(terminate_iff_q.1 mockExec (some (Event.key ⟨KeyCode.char 'q', 0⟩))).mpr
      ⟨⟨KeyCode.char 'q', 0⟩, rfl, rfl⟩,
    terminate_iff_q.2 _ (by decide)⟩

/-- C5: with tool outputs `"72"`, `"55"`, `"NVIDIA X"`, the cycle renders the
line `GPU: NVIDIA X Temperature: 72 °C, Load: 55%` with the temperature
styled as a warning. -/
theorem mock_outputs_render :
    (runCycle mockExec none).output =
      CycleOutput.reading
        ⟨"GPU: NVIDIA X Temperature: 72 °C, Load: 55%", Style.warning⟩ := by
  decide

/-- C6: each query errors exactly when the spawn fails, the process exits
non-zero, the output is not valid UTF-8, or (numeric metrics) the trimmed
output does not parse; each error message carries the underlying cause — for
a parse failure the `ParseFloatError` display, which distinguishes an empty
trimmed string from an invalid literal — and in every remaining case the
parsed value is returned. -/
theorem query_error_taxonomy (exec : Cmd → SpawnResult) :
    (∀ e, exec tempCmd = .err e →
      get_gpu_temperature exec = .error ("Failed to execute command: " ++ e))
    ∧ (∀ o, exec tempCmd = .ok o → o.statusSuccess = false →
      get_gpu_temperature exec = .error ("Command failed with status: " ++
        o.statusDisplay ++ ", stderr: " ++ fromUtf8Lossy o.stderr))
    ∧ (∀ o eu lu, exec tempCmd = .ok o → o.statusSuccess = true →
      o.stdout = .invalid eu lu →
      get_gpu_temperature exec = .error ("Failed to parse output: " ++ eu))
    ∧ (∀ o s, exec tempCmd = .ok o → o.statusSuccess = true →
      o.stdout = .text s → parseF32 (rustTrim s) = none →
      get_gpu_temperature exec =
        .error ("Failed to parse temperature: " ++
          parseFloatErrDisplay (rustTrim s)))
    ∧ (∀ o s v, exec tempCmd = .ok o → o.statusSuccess = true →
      o.stdout = .text s → parseF32 (rustTrim s) = some v →
      get_gpu_temperature exec = .ok v)
    ∧ (∀ e, exec loadCmd = .err e →
      get_gpu_load exec = .error ("Failed to execute command: " ++ e))
    ∧ (∀ o, exec loadCmd = .ok o → o.statusSuccess = false →
      get_gpu_load exec = .error ("Command failed with status: " ++
        o.statusDisplay ++ ", stderr: " ++ fromUtf8Lossy o.stderr))
    ∧ (∀ o eu lu, exec loadCmd = .ok o → o.statusSuccess = true →
      o.stdout = .invalid eu lu →
      get_gpu_load exec = .error ("Failed to parse output: " ++ eu))
    ∧ (∀ o s, exec loadCmd = .ok o → o.statusSuccess = true →
      o.stdout = .text s → parseF32 (rustTrim s) = none →
      get_gpu_load exec =
        .error ("Failed to parse load: " ++ parseFloatErrDisplay (rustTrim s)))
    ∧ (∀ o s v, exec loadCmd = .ok o → o.statusSuccess = true →
      o.stdout = .text s → parseF32 (rustTrim s) = some v →
      get_gpu_load exec = .ok v)
    ∧ (∀ e, exec modelCmd = .err e →
      get_gpu_model exec = .error ("Failed to execute command: " ++ e))
    ∧ (∀ o, exec modelCmd = .ok o → o.statusSuccess = false →
      get_gpu_model exec = .error ("Command failed with status: " ++
        o.statusDisplay ++ ", stderr: " ++ fromUtf8Lossy o.stderr))
    ∧ (∀ o eu lu, exec modelCmd = .ok o → o.statusSuccess = true →
      o.stdout = .invalid eu lu →
      get_gpu_model exec = .error ("Failed to parse output: " ++ eu))
    ∧ (∀ o s, exec modelCmd = .ok o → o.statusSuccess = true →
      o.stdout = .text s → get_gpu_model exec = .ok (rustTrim s))
    ∧ parseFloatErrDisplay "" = "cannot parse float from empty string"
    ∧ (∀ s, s ≠ "" → parseFloatErrDisplay s = "invalid float literal") :=
  ⟨fun e h => temp_spawn_err exec e h,
    fun o h hs => temp_status_err exec o h hs,
    fun o eu lu h hs hst => temp_utf8_err exec o eu lu h hs hst,
    fun o s h hs hst hp => temp_parse_err exec o s h hs hst hp,
    fun o s v h hs hst hp => temp_ok exec o s v h hs hst hp,
    fun e h => load_spawn_err exec e h,
    fun o h hs => load_status_err exec o h hs,
    fun o eu lu h hs hst => load_utf8_err exec o eu lu h hs hst,
    fun o s h hs hst hp => load_parse_err exec o s h hs hst hp,
    fun o s v h hs hst hp => load_ok exec o s v h hs hst hp,
    fun e h => model_spawn_err exec e h,
    fun o h hs => model_status_err exec o h hs,
    fun o eu lu h hs hst => model_utf8_err exec o eu lu h hs hst,
    fun o s h hs hst => model_ok exec o s h hs hst,
    rfl,
    fun s hne => by
      unfold parseFloatErrDisplay
      rw [if_neg hne]⟩

/-- C6 witness: a failed spawn surfaces as the spawn-failure message carrying
the OS error, and an empty (after trimming) stdout surfaces Rust's
empty-string float-parse message. -/
theorem query_error_taxonomy_w :
    get_gpu_temperature failExec =
      .error ("Failed to execute command: " ++
        "No such file or directory (os error 2)")
    ∧ get_gpu_temperature emptyOutExec =
      .error ("Failed to parse temperature: " ++
        parseFloatErrDisplay (rustTrim "\n"))
    ∧ parseFloatErrDisplay (rustTrim "\n") =
      "cannot parse float from empty string" :=
  ⟨(query_error_taxonomy failExec).1 "No such file or directory (os error 2)"
      rfl,
    (query_error_taxonomy emptyOutExec).2.2.2.1
      ⟨true, "exit status: 0", Bytes.text "\n", Bytes.text ""⟩ "\n"
      rfl rfl rfl (by decide),
    by decide⟩

/-- C7: the three queries spawn the GPU tool with exactly the specified
argument sets, and each depends on the environment only through its own
command's result. -/
theorem query_command_args :
    tempCmd.program = "nvidia-smi"
    ∧ tempCmd.args =
      ["--query-gpu=temperature.gpu", "--format=csv,noheader,nounits"]
    ∧ loadCmd.program = "nvidia-smi"
    ∧ loadCmd.args =
      ["--query-gpu=utilization.gpu", "--format=csv,noheader,nounits"]
    ∧ modelCmd.program = "nvidia-smi"
    ∧ modelCmd.args = ["--query-gpu=name", "--format=csv,noheader"]
    ∧ (∀ e₁ e₂ : Cmd → SpawnResult, e₁ tempCmd = e₂ tempCmd →
      get_gpu_temperature e₁ = get_gpu_temperature e₂)
    ∧ (∀ e₁ e₂ : Cmd → SpawnResult, e₁ loadCmd = e₂ loadCmd →
      get_gpu_load e₁ = get_gpu_load e₂)
    ∧ (∀ e₁ e₂ : Cmd → SpawnResult, e₁ modelCmd = e₂ modelCmd →
      get_gpu_model e₁ = get_gpu_model e₂) :=
  ⟨rfl, rfl, rfl, rfl, rfl, rfl, get_gpu_temperature_congr,
    get_gpu_load_congr, get_gpu_model_congr⟩

/-- C7 witness: executors agreeing only on the temperature command give the
same temperature result. -/
theorem query_command_args_w :
    get_gpu_temperature execA = get_gpu_temperature execB :=
  query_command_args.2.2.2.2.2.2.1 execA execB (by decide)

/-- C8: for the numeric queries, stdout is trimmed before numeric parsing:
whenever the trimmed output parses as a float the query succeeds with that
value; in particular `"72\n"` trims to `"72"`, which parses to `72`. -/
theorem numeric_output_trimmed (exec : Cmd → SpawnResult) :
    (∀ o s v, exec tempCmd = .ok o → o.statusSuccess = true →
      o.stdout = .text s → parseF32 (rustTrim s) = some v →
      get_gpu_temperature exec = .ok v)
    ∧ (∀ o s v, exec loadCmd = .ok o → o.statusSuccess = true →
      o.stdout = .text s → parseF32 (rustTrim s) = some v →
      get_gpu_load exec = .ok v)
    ∧ rustTrim "72\n" = "72"
    ∧ parseF32 (rustTrim "72\n") = some (F32.val 72 0) :=
  ⟨fun o s v h hs hst hp => temp_ok exec o s v h hs hst hp,
    fun o s v h hs hst hp => load_ok exec o s v h hs hst hp,
    by decide, by decide⟩

/-- C8 witness: untrimmed numeric outputs (`"72\n"`, `" 55 \n"`) still yield
the parsed numbers. -/
theorem numeric_output_trimmed_w :
    get_gpu_temperature newlineExec = .ok (F32.val 72 0)
    ∧ get_gpu_load newlineExec = .ok (F32.val 55 0) :=
  ⟨(numeric_output_trimmed newlineExec).1
      ⟨true, "exit status: 0", Bytes.text "72\n", Bytes.text ""⟩ "72\n"
      (F32.val 72 0) (by decide) rfl rfl (by decide),
    (numeric_output_trimmed newlineExec).2.1
      ⟨true, "exit status: 0", Bytes.text " 55 \n", Bytes.text ""⟩ " 55 \n"
      (F32.val 55 0) (by decide) rfl rfl (by decide)⟩

/-- C9: the output `"NaN"` parses to NaN; NaN satisfies neither `t > 70.0`
nor `t <= 70.0`, and a NaN temperature renders with the plain style. -/
theorem nan_renders_plain :
    parseF32 "NaN" = some F32.nan
    ∧ F32.gt F32.nan (F32.val 70 0) = false
    ∧ F32.le F32.nan (F32.val 70 0) = false
    ∧ (∀ model load, (renderLine model F32.nan load).tempStyle = Style.plain)
    ∧ (∀ (exec : Cmd → SpawnResult) (input : Option Event),
        get_gpu_temperature exec = .ok F32.nan →
        (runCycle exec input).output =
          .reading (renderLine (modelValue exec) F32.nan (loadValue exec))) := by
  refine ⟨by decide, by decide, by decide, ?_,
    fun exec input h => runCycle_output_ok exec input F32.nan h⟩
  intro model load
  unfold renderLine
  simp [F32.gt]

/-- C9 witness: a cycle whose temperature output is `"NaN"` renders a reading
whose temperature style is plain. -/
theorem nan_renders_plain_w :
    (runCycle nanExec none).output =
      .reading (renderLine (modelValue nanExec) F32.nan (loadValue nanExec))
    ∧ (renderLine (modelValue nanExec) F32.nan (loadValue nanExec)).tempStyle =
      Style.plain :=
  ⟨nan_renders_plain.2.2.2.2 nanExec none (by decide),
    nan_renders_plain.2.2.2.1 (modelValue nanExec) (loadValue nanExec)⟩

/-- C10: each query is a deterministic function of the subprocess result it
observes: two executors agreeing at the query's command produce identical
results (identical Ok values or identical error messages). -/
theorem query_deterministic :
    (∀ e₁ e₂ : Cmd → SpawnResult, e₁ tempCmd = e₂ tempCmd →
      get_gpu_temperature e₁ = get_gpu_temperature e₂)
    ∧ (∀ e₁ e₂ : Cmd → SpawnResult, e₁ loadCmd = e₂ loadCmd →
      get_gpu_load e₁ = get_gpu_load e₂)
    ∧ (∀ e₁ e₂ : Cmd → SpawnResult, e₁ modelCmd = e₂ modelCmd →
      get_gpu_model e₁ = get_gpu_model e₂) :=
  ⟨get_gpu_temperature_congr, get_gpu_load_congr, get_gpu_model_congr⟩

/-- C10 witness: executors observing the same model-query result return the
same model value. -/
theorem query_deterministic_w :
    get_gpu_model execC = get_gpu_model execD :=
  query_deterministic.2.2 execC execD (by decide)

end GpuTempReader
